import Mathlib

/-!
# The scheduler process entry point (process/scheduler/scheduler.go)

A shallow embedding of `Start`, the entry point of the scheduler process, as a program over
an explicit trace of the calls it makes on its collaborators (the database model, the storage
layer, the logger, the operating system, the API key channel and the worker routines), with an
explicit stack of deferred calls.  The results of the collaborators are supplied by a `World`.
-/

namespace Scheduler

/-! ## Data -/

/-- An error value, identified with the text that the format verb `%+v` prints for it. -/
abbrev Error := String

/-- A `bson.ObjectId`, identified with its hexadecimal rendering (the result of `Hex()`). -/
structure ObjectId where
  Hex : String
deriving DecidableEq, Repr

/-- The fields of `model.Process` that `Start` reads (`Type_` is the field `Type`). -/
structure model.Process where
  ID : ObjectId
  ProcessID : Nat
  Type_ : String
deriving DecidableEq, Repr

/-- The field of `model.User` that `Start` reads. -/
structure model.User where
  APIKey : String
deriving DecidableEq, Repr

/-- Modelled from the spec: the constant `model.ProcScheduler`, the process type passed to
`StartProcess`, is declared in the `model` package, not in scheduler.go; the spec calls it the
kind "scheduler". -/
def model.ProcScheduler : String := "scheduler"

/-- Modelled from the spec: the constant `model.ProcTerminated`, the status passed to
`SetProcessStatus`, is declared in the `model` package, not in scheduler.go; the spec calls it
the status Terminated. -/
def model.ProcTerminated : String := "terminated"

/-- A database session. `root` is the session opened by `model.Connect`; `copy t n` is the
session made by the `n`-th `Clone` call executed on thread `t` (thread `0` is the caller of
`Start`, thread `k + 1` is the goroutine started by the `k`-th `go` statement). -/
inductive Session
  | root
  | copy (thread : Nat) (n : Nat)
deriving DecidableEq, Repr

/-- The part of `model.Context` that `Start` touches: the session. -/
structure model.Context where
  Session : Session
deriving DecidableEq, Repr

/-- Mirror of `storage.Context`. -/
structure storage.Context where
  WorkingDir : String
deriving DecidableEq, Repr

/-- An open file (`*os.File`), identified by the name it was opened under. -/
structure os.File where
  name : String
deriving DecidableEq, Repr

/-- The flag `os.O_WRONLY` (value on linux). -/
def os.O_WRONLY : Nat := 0x1

/-- The flag `os.O_CREATE` (value on linux). -/
def os.O_CREATE : Nat := 0x40

/-- The flag `os.O_APPEND` (value on linux). -/
def os.O_APPEND : Nat := 0x400

/-- The flag `os.O_TRUNC` (value on linux). -/
def os.O_TRUNC : Nat := 0x200

/-- Whether the open flags `flag` include every bit of `bit`. -/
def os.hasFlag (flag bit : Nat) : Bool := flag &&& bit == bit

/-- The state of the channel `context.RootAPIKey` when `Start` sends on it: a receiver takes
the value, or no receiver ever does (the send blocks forever), or the channel is closed (the
send panics). -/
inductive Chan
  | ready
  | noReceiver
  | closed
deriving DecidableEq, Repr

/-- The fields of `process.Context` that `Start` reads. -/
structure process.Context where
  WorkingDir : String
  DatabaseAddress : String
  DatabaseName : String
  RootAPIKey : Chan
  ListenerPeriod : Int
  KeepAlivePeriod : Int
  OptimizerID : String
deriving DecidableEq, Repr

/-- A value of a structured log field. -/
inductive logger.Value
  | str (s : String)
  | num (n : Nat)
deriving DecidableEq, Repr

/-- The logger state that `Start` sets: the process identifier it tags entries with and the
additional writers attached to it. -/
structure logger.ProcessLogger where
  ProcessID : String
  writers : List os.File
  fields : List (String × logger.Value)
deriving DecidableEq, Repr

/-- Levels of the log entries `Start` writes. -/
inductive logger.Level
  | info
  | fatal
deriving DecidableEq, Repr

/-- One structured log entry, with the writers it goes to besides the standard one. -/
structure logger.Entry where
  level : logger.Level
  ProcessID : String
  fields : List (String × logger.Value)
  message : String
  writers : List os.File
deriving DecidableEq, Repr

/-- Mirror of `workers.Context` as built at scheduler.go:66-72. -/
structure workers.Context where
  ModelContext : model.Context
  StorageContext : storage.Context
  ProcessID : ObjectId
  Period : Int
  Logger : logger.ProcessLogger
deriving DecidableEq, Repr

/-- The calls `Start` makes on its collaborators, in the order they are made. -/
inductive Event
  | Println (s : String)
  | Connect (address name : String) (flag : Bool)
  | StartProcess (session : Session) (procType : String)
  | SetProcessStatus (session : Session) (id : ObjectId) (status : String)
  | Log (entry : logger.Entry)
  | GetProcessPath (ctx : storage.Context) (id subdir : String)
  | OpenFile (name : String) (flag perm : Nat)
  | AddJSONWriter (file : os.File)
  | FileClose (file : os.File)
  | UserLogin (session : Session)
  | Send (key : String)
  | Go (thread : Nat)
  | Clone (src copy : Session)
  | SessionClose (session : Session)
  | ProcessKeepaliveWorker (ctx : workers.Context) (period : Int)
  | ProcessKeepaliveWorkerReturn
  | OptimizerRunListener (ctx : workers.Context) (optimizerID : String)
  | OptimizerRunListenerReturn
deriving DecidableEq, Repr

/-- The results of the collaborators of `Start`. None of them is defined in scheduler.go. -/
structure World where
  /-- Result of `model.Connect(address, name, false)`: an error, or success. -/
  Connect : String → String → Bool → Except Error Unit
  /-- Result of `modelContext.StartProcess(procType)`. -/
  StartProcess : String → Except Error model.Process
  /-- Result of `storageContext.GetProcessPath(id, subdir)`. -/
  GetProcessPath : storage.Context → String → String → Except Error String
  /-- The function `filepath.Join` on two elements. -/
  Join : String → String → String
  /-- Result of `os.OpenFile(name, flag, perm)`. -/
  OpenFile : String → Nat → Nat → Except Error os.File
  /-- The constant `storage.DefaultFilePerm`. -/
  DefaultFilePerm : Nat
  /-- Result of `modelContext.UserLogin()`. -/
  UserLogin : Except Error model.User
  /-- Whether `ProcessKeepaliveWorker(period)` ever returns. -/
  ProcessKeepaliveWorker : workers.Context → Int → Bool
  /-- Whether `OptimizerRunListener(optimizerID)` ever returns. -/
  OptimizerRunListener : workers.Context → String → Bool

/-! ## Control: threads, deferred calls, ways to stop -/

/-- How a thread stops: it returns from its function, it is terminated by `WriteFatal`, it
panics, or it blocks forever. -/
inductive Exit
  | returned
  | fatal
  | panicked (err : Error)
  | blocked
deriving DecidableEq, Repr

/-- The state of a running thread: its number, how many session copies it has made, the calls
it has made so far, its stack of deferred calls (last deferred first) and the traces of the
goroutines it has started. -/
structure State where
  thread : Nat
  copies : Nat
  trace : List Event
  defers : List Event
  spawned : List (List Event)
deriving DecidableEq, Repr

/-- The result of one statement: go on with a value, or stop. -/
inductive Outcome (α : Type)
  | next (a : α) (s : State)
  | stop (e : Exit) (s : State)

/-- A piece of Go code run on a thread. -/
def GoM (α : Type) : Type := State → Outcome α

/-- Sequencing: the second statement runs only when the first goes on. -/
def GoM.bind {α β : Type} (m : GoM α) (f : α → GoM β) : GoM β := fun s =>
  match m s with
  | .next a s1 => f a s1
  | .stop e s1 => .stop e s1

instance : Monad GoM where
  pure a := fun s => .next a s
  bind := GoM.bind

/-- A call on a collaborator: it is recorded and gives the result `r`. -/
def call {α : Type} (e : Event) (r : α) : GoM α := fun s =>
  .next r { s with trace := s.trace ++ [e] }

/-- The statement `defer f(args)`, for a call `f(args)` recorded as the event `e`. -/
def defer (e : Event) : GoM Unit := fun s =>
  .next () { s with defers := e :: s.defers }

/-- The statement `panic(err)`. -/
def panic {α : Type} (err : Error) : GoM α := fun s => .stop (.panicked err) s

/-- A statement that never completes. -/
def block {α : Type} : GoM α := fun s => .stop .blocked s

/-- The complete run of a thread: the way it stopped, the calls it made in order (the deferred
calls included) and the traces of the goroutines it started. -/
structure Run where
  exit : Exit
  main : List Event
  spawned : List (List Event)
deriving DecidableEq, Repr

/-- Run `body` as thread number `thread` with an empty stack of deferred calls. When the
thread returns or panics its deferred calls run, last deferred first; a thread that blocks
forever, or that `WriteFatal` has terminated, makes no further call. -/
def runThread (thread : Nat) (body : GoM Unit) : Run :=
  match body { thread := thread, copies := 0, trace := [], defers := [], spawned := [] } with
  | .next _ s => { exit := .returned, main := s.trace ++ s.defers, spawned := s.spawned }
  | .stop (.panicked err) s =>
    { exit := .panicked err, main := s.trace ++ s.defers, spawned := s.spawned }
  | .stop e s => { exit := e, main := s.trace, spawned := s.spawned }

/-- The statement `go func() { body }()`: the goroutine gets the next thread number and the
launch is recorded in the launching thread. The calls of the goroutine are recorded apart, in
the order in which the goroutine makes them once it runs; how they interleave with the calls
of the launching thread is left open. -/
def go (body : GoM Unit) : GoM Unit := fun s =>
  let thread := s.spawned.length + 1
  .next () { s with
    trace := s.trace ++ [Event.Go thread],
    spawned := s.spawned ++ [(runThread thread body).main] }

/-! ## The collaborators -/

/-- The call `fmt.Println(s)`. -/
def fmt.Println (s : String) : GoM Unit := call (.Println s) ()

/-- The result of `fmt.Sprintf("fatal: %+v", err)`. -/
def fatalMessage (err : Error) : String := "fatal: " ++ err

/-- Modelled from the spec: `logger.NewProcessLogger` is not in scheduler.go. A new logger has
no process identifier, no additional writer and no pending fields. -/
def logger.NewProcessLogger : logger.ProcessLogger :=
  { ProcessID := "", writers := [], fields := [] }

/-- Modelled from the spec: `WithFields` is not in scheduler.go. The spec has the log sink
accept structured key/value entries; the given pairs are the fields of the next entry. -/
def logger.ProcessLogger.WithFields (log : logger.ProcessLogger)
    (fields : List (String × logger.Value)) : logger.ProcessLogger :=
  { log with fields := fields }

/-- The entry that `log` writes at `level` with `message`. -/
def logger.ProcessLogger.entry (log : logger.ProcessLogger) (level : logger.Level)
    (message : String) : logger.Entry :=
  { level := level, ProcessID := log.ProcessID, fields := log.fields, message := message,
    writers := log.writers }

/-- Modelled from the spec: `WriteInfo` is not in scheduler.go. It writes one entry at level
info to the sinks of the logger. -/
def logger.ProcessLogger.WriteInfo (log : logger.ProcessLogger) (message : String) : GoM Unit :=
  call (.Log (log.entry .info message)) ()

/-- Modelled from the spec: `WriteFatal` is not in scheduler.go. By the spec a fatal error
"writes a fatal-level log entry and terminates the process without running later
(not-yet-reached) setup, but DOES run every cleanup already deferred up to that point": the
entry is written, the calls deferred so far run, last deferred first, and the thread stops with
`Exit.fatal`. -/
def logger.ProcessLogger.WriteFatal {α : Type} (log : logger.ProcessLogger) (message : String) :
    GoM α := fun s =>
  .stop .fatal
    { s with
      trace := s.trace ++ [Event.Log (log.entry .fatal message)] ++ s.defers,
      defers := [] }

/-- Modelled from the spec: `AddJSONWriter` is not in scheduler.go. By the spec the log sink
"supports attaching additional output destinations (e.g., a per-process file) at runtime": the
file is added to the writers of the logger. -/
def logger.ProcessLogger.AddJSONWriter (log : logger.ProcessLogger) (file : os.File) :
    GoM logger.ProcessLogger :=
  call (.AddJSONWriter file) { log with writers := log.writers ++ [file] }

/-- The call `model.Connect(address, name, flag)`; on success the context holds the root
session. -/
def model.Connect (w : World) (address name : String) (flag : Bool) :
    GoM (Except Error model.Context) :=
  call (.Connect address name flag)
    ((w.Connect address name flag).map fun _ => { Session := Session.root })

/-- The call `modelContext.StartProcess(procType)`. -/
def model.Context.StartProcess (modelContext : model.Context) (w : World) (procType : String) :
    GoM (Except Error model.Process) :=
  call (.StartProcess modelContext.Session procType) (w.StartProcess procType)

/-- The call `modelContext.UserLogin()`. -/
def model.Context.UserLogin (modelContext : model.Context) (w : World) :
    GoM (Except Error model.User) :=
  call (.UserLogin modelContext.Session) w.UserLogin

/-- The call `storageContext.GetProcessPath(id, subdir)`. -/
def storage.Context.GetProcessPath (storageContext : storage.Context) (w : World)
    (id subdir : String) : GoM (Except Error String) :=
  call (.GetProcessPath storageContext id subdir) (w.GetProcessPath storageContext id subdir)

/-- The call `os.OpenFile(name, flag, perm)`. -/
def os.OpenFile (w : World) (name : String) (flag perm : Nat) : GoM (Except Error os.File) :=
  call (.OpenFile name flag perm) (w.OpenFile name flag perm)

/-- The statement `ch <- key`. -/
def Chan.send (ch : Chan) (key : String) : GoM Unit :=
  match ch with
  | .ready => call (.Send key) ()
  | .noReceiver => block
  | .closed => panic "send on closed channel"

/-- Modelled from the spec: `workers.Context.Clone` is not in scheduler.go. By the spec the
clone capability "opens a fresh underlying connection": the copy of the context differs from
the original in its session, which is the next copy made on the running thread. -/
def workers.Context.Clone (context : workers.Context) : GoM workers.Context := fun s =>
  let session := Session.copy s.thread s.copies
  .next { context with ModelContext := { Session := session } }
    { s with
      copies := s.copies + 1,
      trace := s.trace ++ [Event.Clone context.ModelContext.Session session] }

/-- The call `workersContext.ProcessKeepaliveWorker(period)`: it returns or runs forever, as
the world has it. -/
def workers.Context.ProcessKeepaliveWorker (context : workers.Context) (w : World)
    (period : Int) : GoM Unit := do
  call (.ProcessKeepaliveWorker context period) ()
  if w.ProcessKeepaliveWorker context period then
    call .ProcessKeepaliveWorkerReturn ()
  else
    block

/-- The call `workersContext.OptimizerRunListener(optimizerID)`: it returns or blocks forever,
as the world has it. -/
def workers.Context.OptimizerRunListener (context : workers.Context) (w : World)
    (optimizerID : String) : GoM Unit := do
  call (.OptimizerRunListener context optimizerID) ()
  if w.OptimizerRunListener context optimizerID then
    call .OptimizerRunListenerReturn ()
  else
    block

/-! ## The entry point -/

/-- The function `Start` of scheduler.go, statement by statement. -/
def Start (w : World) (context : process.Context) : GoM Unit := do
  fmt.Println "scheduler called"

  let log := logger.NewProcessLogger

  -- Initialize the storage context.
  let storageContext : storage.Context := { WorkingDir := context.WorkingDir }

  let modelContext ←
    match ← model.Connect w context.DatabaseAddress context.DatabaseName false with
    | .error err => log.WriteFatal (fatalMessage err)
    | .ok modelContext => pure modelContext
  defer (.SessionClose modelContext.Session)

  -- Register the new process.
  let process ←
    match ← modelContext.StartProcess w model.ProcScheduler with
    | .error err => log.WriteFatal (fatalMessage err)
    | .ok process => pure process
  defer (.SetProcessStatus modelContext.Session process.ID model.ProcTerminated)
  (log.WithFields [("process-id", .str process.ID.Hex), ("PID", .num process.ProcessID)]).WriteInfo
    "SCHEDULER PROCESS STARTED"
  let log := { log with ProcessID := process.ID.Hex }

  -- Create log file.
  let processPath ←
    match ← storageContext.GetProcessPath w process.ID.Hex "" with
    | .error err => panic err
    | .ok processPath => pure processPath
  let logFilePath := w.Join processPath (process.Type_ ++ ".log")
  let logFile ←
    match ← os.OpenFile w logFilePath (os.O_WRONLY ||| os.O_CREATE) w.DefaultFilePerm with
    | .error err => panic err
    | .ok logFile => pure logFile
  let log ← log.AddJSONWriter logFile
  defer (.FileClose logFile)

  -- Log the root user in and generate their API key.
  let user ←
    match ← modelContext.UserLogin w with
    | .error err => log.WriteFatal (fatalMessage err)
    | .ok user => pure user
  (log.WithFields [("api-key", .str user.APIKey)]).WriteInfo "ROOT USER LOGGED IN"

  -- Report the root API key to the API key channel.
  context.RootAPIKey.send user.APIKey

  -- Run the downloader.
  let workersContext : workers.Context :=
    { ModelContext := modelContext,
      StorageContext := storageContext,
      ProcessID := process.ID,
      Period := context.ListenerPeriod,
      Logger := log }

  -- Process keepalive goroutine.
  go do
    let workersContextCopy ← workersContext.Clone
    defer (.SessionClose workersContextCopy.ModelContext.Session)
    workersContextCopy.ProcessKeepaliveWorker w context.KeepAlivePeriod

  -- Objective runner worker. This is the only goroutine so we will block.
  let workersContextCopy ← workersContext.Clone
  defer (.SessionClose workersContextCopy.ModelContext.Session)
  workersContextCopy.OptimizerRunListener w context.OptimizerID

/-- A run of `Start` on the calling thread (thread `0`). -/
def Start.run (w : World) (context : process.Context) : Run :=
  runThread 0 (Start w context)

/-! ## Observations on traces -/

/-- Whether the event is a call of `StartProcess`. -/
def Event.isStartProcess : Event → Bool
  | .StartProcess _ _ => true
  | _ => false

/-- Whether the event is a call of `SetProcessStatus`. -/
def Event.isSetProcessStatus : Event → Bool
  | .SetProcessStatus _ _ _ => true
  | _ => false

/-- Whether the event is a call of `UserLogin`. -/
def Event.isUserLogin : Event → Bool
  | .UserLogin _ => true
  | _ => false

/-- Whether the event is a completed send on the API key channel. -/
def Event.isSend : Event → Bool
  | .Send _ => true
  | _ => false

/-- Whether the event is a `go` statement. -/
def Event.isGo : Event → Bool
  | .Go _ => true
  | _ => false

/-- Whether the event is a call of `Clone`. -/
def Event.isClone : Event → Bool
  | .Clone _ _ => true
  | _ => false

/-- Whether the event is an invocation of `ProcessKeepaliveWorker`. -/
def Event.isProcessKeepaliveWorker : Event → Bool
  | .ProcessKeepaliveWorker _ _ => true
  | _ => false

/-- Whether the event is an invocation of `OptimizerRunListener`. -/
def Event.isOptimizerRunListener : Event → Bool
  | .OptimizerRunListener _ _ => true
  | _ => false

/-- The calls made after the first occurrence of `a` in `tr` (none when `a` does not occur). -/
def callsAfter (a : Event) (tr : List Event) : List Event :=
  (tr.dropWhile fun e => e != a).drop 1

/-- The calls made before the first occurrence of `a` in `tr` (all when `a` does not occur). -/
def callsBefore (a : Event) (tr : List Event) : List Event :=
  tr.takeWhile fun e => e != a

/-- The log entries written in `tr`, in order. -/
def logEntries : List Event → List logger.Entry
  | [] => []
  | .Log entry :: tr => entry :: logEntries tr
  | _ :: tr => logEntries tr

/-- The sessions a trace opens by `Clone`. -/
def clonedSessions : List Event → List Session
  | [] => []
  | .Clone _ copy :: tr => copy :: clonedSessions tr
  | _ :: tr => clonedSessions tr

/-- Whether the event is a call of `os.OpenFile`. -/
def Event.isOpenFile : Event → Bool
  | .OpenFile _ _ _ => true
  | _ => false

/-- The log entries of `tr` that go to the writer `file`. -/
def writtenTo (file : os.File) (tr : List Event) : List logger.Entry :=
  (logEntries tr).filter fun entry => entry.writers.contains file

/-! ## The calls of a run, segment by segment -/

/-- The context built at scheduler.go:66-72 for the process `p` and the log file `f`, with the
session `session` in place of the root session. -/
def contextWith (c : process.Context) (p : model.Process) (f : os.File) (session : Session) :
    workers.Context :=
  { ModelContext := { Session := session },
    StorageContext := { WorkingDir := c.WorkingDir },
    ProcessID := p.ID,
    Period := c.ListenerPeriod,
    Logger := { ProcessID := p.ID.Hex, writers := [f], fields := [] } }

/-- The calls of a run up to the result of `StartProcess`. -/
def registerCalls (c : process.Context) : List Event :=
  [.Println "scheduler called", .Connect c.DatabaseAddress c.DatabaseName false,
   .StartProcess .root model.ProcScheduler]

/-- The entry logged after registration. -/
def startedEntry (p : model.Process) : logger.Entry :=
  { level := .info, ProcessID := "",
    fields := [("process-id", .str p.ID.Hex), ("PID", .num p.ProcessID)],
    message := "SCHEDULER PROCESS STARTED", writers := [] }

/-- The entry logged after the login of the root user. -/
def loggedInEntry (p : model.Process) (f : os.File) (u : model.User) : logger.Entry :=
  { level := .info, ProcessID := p.ID.Hex, fields := [("api-key", .str u.APIKey)],
    message := "ROOT USER LOGGED IN", writers := [f] }

/-- The calls of a run from the start to the result of `UserLogin`. -/
def loginCalls (w : World) (c : process.Context) (p : model.Process) (path : String)
    (f : os.File) : List Event :=
  registerCalls c ++
  [.Log (startedEntry p), .GetProcessPath { WorkingDir := c.WorkingDir } p.ID.Hex "",
   .OpenFile (w.Join path (p.Type_ ++ ".log")) (os.O_WRONLY ||| os.O_CREATE) w.DefaultFilePerm,
   .AddJSONWriter f, .UserLogin .root]

/-- The calls of the keepalive goroutine. -/
def keepaliveCalls (w : World) (c : process.Context) (p : model.Process) (f : os.File) :
    List Event :=
  [.Clone .root (.copy 1 0), .ProcessKeepaliveWorker (contextWith c p f (.copy 1 0)) c.KeepAlivePeriod]
  ++ if w.ProcessKeepaliveWorker (contextWith c p f (.copy 1 0)) c.KeepAlivePeriod then
      [.ProcessKeepaliveWorkerReturn, .SessionClose (.copy 1 0)]
    else []

/-! ## Sample inputs and the paths of a run -/


/-- The world of the end-to-end scenario of the spec: registration gives the identifier "P1",
login gives the key "k1", the listener returns at once, the keepalive worker runs forever. -/
def demoWorld : World :=
  { Connect := fun _ _ _ => .ok ()
    StartProcess := fun t => .ok { ID := { Hex := "P1" }, ProcessID := 42, Type_ := t }
    GetProcessPath := fun ctx id _ => .ok (ctx.WorkingDir ++ "/" ++ id)
    Join := fun a b => a ++ "/" ++ b
    OpenFile := fun name _ _ => .ok { name := name }
    DefaultFilePerm := 0o644
    UserLogin := .ok { APIKey := "k1" }
    ProcessKeepaliveWorker := fun _ _ => false
    OptimizerRunListener := fun _ _ => true }

/-- A configuration whose listener period and keepalive period differ. -/
def demoContext : process.Context :=
  { WorkingDir := "/w", DatabaseAddress := "a", DatabaseName := "n", RootAPIKey := .ready,
    ListenerPeriod := 1, KeepAlivePeriod := 2, OptimizerID := "opt" }

/-- The process registered in `demoWorld`. -/
def demoProcess : model.Process := { ID := { Hex := "P1" }, ProcessID := 42, Type_ := "scheduler" }

/-- The log file opened in `demoWorld`. -/
def demoFile : os.File := { name := "/w/P1/scheduler.log" }

/-- The paths a run of `Start` can take, by the results of its collaborators. -/
inductive Path (w : World) (c : process.Context) : Prop
  | connectFails (e : Error)
      (h1 : w.Connect c.DatabaseAddress c.DatabaseName false = .error e)
  | registerFails (e : Error)
      (h1 : w.Connect c.DatabaseAddress c.DatabaseName false = .ok ())
      (h2 : w.StartProcess model.ProcScheduler = .error e)
  | pathFails (p : model.Process) (e : Error)
      (h1 : w.Connect c.DatabaseAddress c.DatabaseName false = .ok ())
      (h2 : w.StartProcess model.ProcScheduler = .ok p)
      (h3 : w.GetProcessPath { WorkingDir := c.WorkingDir } p.ID.Hex "" = .error e)
  | openFails (p : model.Process) (path : String) (e : Error)
      (h1 : w.Connect c.DatabaseAddress c.DatabaseName false = .ok ())
      (h2 : w.StartProcess model.ProcScheduler = .ok p)
      (h3 : w.GetProcessPath { WorkingDir := c.WorkingDir } p.ID.Hex "" = .ok path)
      (h4 : w.OpenFile (w.Join path (p.Type_ ++ ".log")) (os.O_WRONLY ||| os.O_CREATE)
        w.DefaultFilePerm = .error e)
  | loginFails (p : model.Process) (path : String) (f : os.File) (e : Error)
      (h1 : w.Connect c.DatabaseAddress c.DatabaseName false = .ok ())
      (h2 : w.StartProcess model.ProcScheduler = .ok p)
      (h3 : w.GetProcessPath { WorkingDir := c.WorkingDir } p.ID.Hex "" = .ok path)
      (h4 : w.OpenFile (w.Join path (p.Type_ ++ ".log")) (os.O_WRONLY ||| os.O_CREATE)
        w.DefaultFilePerm = .ok f)
      (h5 : w.UserLogin = .error e)
  | loggedIn (p : model.Process) (path : String) (f : os.File) (u : model.User)
      (h1 : w.Connect c.DatabaseAddress c.DatabaseName false = .ok ())
      (h2 : w.StartProcess model.ProcScheduler = .ok p)
      (h3 : w.GetProcessPath { WorkingDir := c.WorkingDir } p.ID.Hex "" = .ok path)
      (h4 : w.OpenFile (w.Join path (p.Type_ ++ ".log")) (os.O_WRONLY ||| os.O_CREATE)
        w.DefaultFilePerm = .ok f)
      (h5 : w.UserLogin = .ok u)

/-! ## The runs of `Start`, path by path -/

theorem GoM.bind_def {α β : Type} (m : GoM α) (f : α → GoM β) : (m >>= f) = GoM.bind m f := rfl

theorem GoM.pure_def {α : Type} (a : α) : (pure a : GoM α) = fun s => .next a s := rfl

theorem run_connect_fails (w : World) (c : process.Context) (e : Error)
    (h1 : w.Connect c.DatabaseAddress c.DatabaseName false = .error e) :
    Start.run w c =
      { exit := .fatal,
        main := [.Println "scheduler called", .Connect c.DatabaseAddress c.DatabaseName false,
          .Log { level := .fatal, ProcessID := "", fields := [], message := "fatal: " ++ e,
                 writers := [] }],
        spawned := [] } := by
  simp [Start.run, Start, runThread, GoM.bind_def, GoM.bind, GoM.pure_def, call, defer,
    fmt.Println, model.Connect, Except.map, logger.ProcessLogger.WriteFatal,
    logger.ProcessLogger.entry, logger.NewProcessLogger, fatalMessage, h1]

theorem run_register_fails (w : World) (c : process.Context) (e : Error)
    (h1 : w.Connect c.DatabaseAddress c.DatabaseName false = .ok ())
    (h2 : w.StartProcess model.ProcScheduler = .error e) :
    Start.run w c =
      { exit := .fatal,
        main := registerCalls c ++
          [.Log { level := .fatal, ProcessID := "", fields := [], message := "fatal: " ++ e,
                  writers := [] },
           .SessionClose .root],
        spawned := [] } := by
  simp [Start.run, Start, runThread, GoM.bind_def, GoM.bind, GoM.pure_def, call, defer,
    fmt.Println, model.Connect, Except.map, logger.ProcessLogger.WriteFatal,
    logger.ProcessLogger.entry, logger.NewProcessLogger, fatalMessage,
    model.Context.StartProcess, registerCalls, h1, h2]

theorem run_path_fails (w : World) (c : process.Context) (p : model.Process) (e : Error)
    (h1 : w.Connect c.DatabaseAddress c.DatabaseName false = .ok ())
    (h2 : w.StartProcess model.ProcScheduler = .ok p)
    (h3 : w.GetProcessPath { WorkingDir := c.WorkingDir } p.ID.Hex "" = .error e) :
    Start.run w c =
      { exit := .panicked e,
        main := registerCalls c ++
          [.Log (startedEntry p), .GetProcessPath { WorkingDir := c.WorkingDir } p.ID.Hex "",
           .SetProcessStatus .root p.ID model.ProcTerminated, .SessionClose .root],
        spawned := [] } := by
  simp [Start.run, Start, runThread, GoM.bind_def, GoM.bind, GoM.pure_def, call, defer, panic,
    fmt.Println, model.Connect, Except.map, logger.ProcessLogger.WriteInfo,
    logger.ProcessLogger.WithFields, logger.ProcessLogger.entry, logger.NewProcessLogger,
    model.Context.StartProcess, storage.Context.GetProcessPath, registerCalls, startedEntry,
    h1, h2, h3]

theorem run_open_fails (w : World) (c : process.Context) (p : model.Process) (path : String)
    (e : Error)
    (h1 : w.Connect c.DatabaseAddress c.DatabaseName false = .ok ())
    (h2 : w.StartProcess model.ProcScheduler = .ok p)
    (h3 : w.GetProcessPath { WorkingDir := c.WorkingDir } p.ID.Hex "" = .ok path)
    (h4 : w.OpenFile (w.Join path (p.Type_ ++ ".log")) (os.O_WRONLY ||| os.O_CREATE)
      w.DefaultFilePerm = .error e) :
    Start.run w c =
      { exit := .panicked e,
        main := registerCalls c ++
          [.Log (startedEntry p), .GetProcessPath { WorkingDir := c.WorkingDir } p.ID.Hex "",
           .OpenFile (w.Join path (p.Type_ ++ ".log")) (os.O_WRONLY ||| os.O_CREATE)
             w.DefaultFilePerm,
           .SetProcessStatus .root p.ID model.ProcTerminated, .SessionClose .root],
        spawned := [] } := by
  simp [Start.run, Start, runThread, GoM.bind_def, GoM.bind, GoM.pure_def, call, defer, panic,
    fmt.Println, model.Connect, Except.map, logger.ProcessLogger.WriteInfo,
    logger.ProcessLogger.WithFields, logger.ProcessLogger.entry, logger.NewProcessLogger,
    model.Context.StartProcess, storage.Context.GetProcessPath, os.OpenFile, registerCalls,
    startedEntry, h1, h2, h3, h4]

theorem run_login_fails (w : World) (c : process.Context) (p : model.Process) (path : String)
    (f : os.File) (e : Error)
    (h1 : w.Connect c.DatabaseAddress c.DatabaseName false = .ok ())
    (h2 : w.StartProcess model.ProcScheduler = .ok p)
    (h3 : w.GetProcessPath { WorkingDir := c.WorkingDir } p.ID.Hex "" = .ok path)
    (h4 : w.OpenFile (w.Join path (p.Type_ ++ ".log")) (os.O_WRONLY ||| os.O_CREATE)
      w.DefaultFilePerm = .ok f)
    (h5 : w.UserLogin = .error e) :
    Start.run w c =
      { exit := .fatal,
        main := loginCalls w c p path f ++
          [.Log { level := .fatal, ProcessID := p.ID.Hex, fields := [],
                  message := "fatal: " ++ e, writers := [f] },
           .FileClose f, .SetProcessStatus .root p.ID model.ProcTerminated,
           .SessionClose .root],
        spawned := [] } := by
  simp [Start.run, Start, runThread, GoM.bind_def, GoM.bind, GoM.pure_def, call, defer, panic,
    fmt.Println, model.Connect, Except.map, logger.ProcessLogger.WriteInfo,
    logger.ProcessLogger.WriteFatal, logger.ProcessLogger.AddJSONWriter, fatalMessage,
    logger.ProcessLogger.WithFields, logger.ProcessLogger.entry, logger.NewProcessLogger,
    model.Context.StartProcess, model.Context.UserLogin, storage.Context.GetProcessPath,
    os.OpenFile, registerCalls, loginCalls, startedEntry, h1, h2, h3, h4, h5]

theorem run_send_blocks (w : World) (c : process.Context) (p : model.Process) (path : String)
    (f : os.File) (u : model.User)
    (h1 : w.Connect c.DatabaseAddress c.DatabaseName false = .ok ())
    (h2 : w.StartProcess model.ProcScheduler = .ok p)
    (h3 : w.GetProcessPath { WorkingDir := c.WorkingDir } p.ID.Hex "" = .ok path)
    (h4 : w.OpenFile (w.Join path (p.Type_ ++ ".log")) (os.O_WRONLY ||| os.O_CREATE)
      w.DefaultFilePerm = .ok f)
    (h5 : w.UserLogin = .ok u) (h6 : c.RootAPIKey = .noReceiver) :
    Start.run w c =
      { exit := .blocked,
        main := loginCalls w c p path f ++ [.Log (loggedInEntry p f u)],
        spawned := [] } := by
  simp [Start.run, Start, runThread, GoM.bind_def, GoM.bind, GoM.pure_def, call, defer, panic,
    block, fmt.Println, model.Connect, Except.map, logger.ProcessLogger.WriteInfo,
    logger.ProcessLogger.AddJSONWriter, Chan.send,
    logger.ProcessLogger.WithFields, logger.ProcessLogger.entry, logger.NewProcessLogger,
    model.Context.StartProcess, model.Context.UserLogin, storage.Context.GetProcessPath,
    os.OpenFile, registerCalls, loginCalls, startedEntry, loggedInEntry, h1, h2, h3, h4, h5, h6]

theorem run_send_closed (w : World) (c : process.Context) (p : model.Process) (path : String)
    (f : os.File) (u : model.User)
    (h1 : w.Connect c.DatabaseAddress c.DatabaseName false = .ok ())
    (h2 : w.StartProcess model.ProcScheduler = .ok p)
    (h3 : w.GetProcessPath { WorkingDir := c.WorkingDir } p.ID.Hex "" = .ok path)
    (h4 : w.OpenFile (w.Join path (p.Type_ ++ ".log")) (os.O_WRONLY ||| os.O_CREATE)
      w.DefaultFilePerm = .ok f)
    (h5 : w.UserLogin = .ok u) (h6 : c.RootAPIKey = .closed) :
    Start.run w c =
      { exit := .panicked "send on closed channel",
        main := loginCalls w c p path f ++
          [.Log (loggedInEntry p f u), .FileClose f,
           .SetProcessStatus .root p.ID model.ProcTerminated, .SessionClose .root],
        spawned := [] } := by
  simp [Start.run, Start, runThread, GoM.bind_def, GoM.bind, GoM.pure_def, call, defer, panic,
    block, fmt.Println, model.Connect, Except.map, logger.ProcessLogger.WriteInfo,
    logger.ProcessLogger.AddJSONWriter, Chan.send,
    logger.ProcessLogger.WithFields, logger.ProcessLogger.entry, logger.NewProcessLogger,
    model.Context.StartProcess, model.Context.UserLogin, storage.Context.GetProcessPath,
    os.OpenFile, registerCalls, loginCalls, startedEntry, loggedInEntry, h1, h2, h3, h4, h5, h6]

theorem run_launched (w : World) (c : process.Context) (p : model.Process) (path : String)
    (f : os.File) (u : model.User)
    (h1 : w.Connect c.DatabaseAddress c.DatabaseName false = .ok ())
    (h2 : w.StartProcess model.ProcScheduler = .ok p)
    (h3 : w.GetProcessPath { WorkingDir := c.WorkingDir } p.ID.Hex "" = .ok path)
    (h4 : w.OpenFile (w.Join path (p.Type_ ++ ".log")) (os.O_WRONLY ||| os.O_CREATE)
      w.DefaultFilePerm = .ok f)
    (h5 : w.UserLogin = .ok u) (h6 : c.RootAPIKey = .ready) :
    Start.run w c =
      { exit := if w.OptimizerRunListener (contextWith c p f (.copy 0 0)) c.OptimizerID then
          .returned else .blocked,
        main := loginCalls w c p path f ++
          [.Log (loggedInEntry p f u), .Send u.APIKey, .Go 1, .Clone .root (.copy 0 0),
           .OptimizerRunListener (contextWith c p f (.copy 0 0)) c.OptimizerID] ++
          if w.OptimizerRunListener (contextWith c p f (.copy 0 0)) c.OptimizerID then
            [.OptimizerRunListenerReturn, .SessionClose (.copy 0 0), .FileClose f,
             .SetProcessStatus .root p.ID model.ProcTerminated, .SessionClose .root]
          else [],
        spawned := [keepaliveCalls w c p f] } := by
  by_cases hl : w.OptimizerRunListener (contextWith c p f (.copy 0 0)) c.OptimizerID = true <;>
  by_cases hk : w.ProcessKeepaliveWorker (contextWith c p f (.copy 1 0)) c.KeepAlivePeriod = true <;>
  simp [contextWith] at hl hk <;>
  simp [Start.run, Start, runThread, GoM.bind_def, GoM.bind, GoM.pure_def, call, defer, panic,
    block, go, fmt.Println, model.Connect, Except.map, logger.ProcessLogger.WriteInfo,
    logger.ProcessLogger.AddJSONWriter, Chan.send, workers.Context.Clone,
    workers.Context.ProcessKeepaliveWorker, workers.Context.OptimizerRunListener,
    logger.ProcessLogger.WithFields, logger.ProcessLogger.entry, logger.NewProcessLogger,
    model.Context.StartProcess, model.Context.UserLogin, storage.Context.GetProcessPath,
    os.OpenFile, registerCalls, loginCalls, startedEntry, loggedInEntry, keepaliveCalls,
    contextWith, h1, h2, h3, h4, h5, h6, hl, hk]

theorem path_exists (w : World) (c : process.Context) : Path w c := by
  rcases h1 : w.Connect c.DatabaseAddress c.DatabaseName false with e | ⟨⟩
  · exact .connectFails e h1
  rcases h2 : w.StartProcess model.ProcScheduler with e | p
  · exact .registerFails e h1 h2
  rcases h3 : w.GetProcessPath { WorkingDir := c.WorkingDir } p.ID.Hex "" with e | path
  · exact .pathFails p e h1 h2 h3
  rcases h4 : w.OpenFile (w.Join path (p.Type_ ++ ".log")) (os.O_WRONLY ||| os.O_CREATE)
      w.DefaultFilePerm with e | f
  · exact .openFails p path e h1 h2 h3 h4
  rcases h5 : w.UserLogin with e | u
  · exact .loginFails p path f e h1 h2 h3 h4 h5
  · exact .loggedIn p path f u h1 h2 h3 h4 h5

/-- In a run in which the setup succeeds and the listener returns, the channel delivered the
key and the listener returned on the first copy of the calling thread. -/
theorem listener_returned (w : World) (c : process.Context) (p : model.Process) (path : String)
    (f : os.File) (u : model.User)
    (h1 : w.Connect c.DatabaseAddress c.DatabaseName false = .ok ())
    (h2 : w.StartProcess model.ProcScheduler = .ok p)
    (h3 : w.GetProcessPath { WorkingDir := c.WorkingDir } p.ID.Hex "" = .ok path)
    (h4 : w.OpenFile (w.Join path (p.Type_ ++ ".log")) (os.O_WRONLY ||| os.O_CREATE)
      w.DefaultFilePerm = .ok f)
    (h5 : w.UserLogin = .ok u)
    (hret : Event.OptimizerRunListenerReturn ∈ (Start.run w c).main) :
    c.RootAPIKey = .ready ∧
      w.OptimizerRunListener (contextWith c p f (.copy 0 0)) c.OptimizerID = true := by
  rcases h6 : c.RootAPIKey with _ | _ | _
  · refine ⟨rfl, ?_⟩
    by_contra hl
    rw [run_launched w c p path f u h1 h2 h3 h4 h5 h6] at hret
    simp [hl, loginCalls, registerCalls] at hret
  · rw [run_send_blocks w c p path f u h1 h2 h3 h4 h5 h6] at hret
    simp [loginCalls, registerCalls] at hret
  · rw [run_send_closed w c p path f u h1 h2 h3 h4 h5 h6] at hret
    simp [loginCalls, registerCalls] at hret

/-- The run in which the setup succeeds and the listener returns. -/
theorem run_returned (w : World) (c : process.Context) (p : model.Process) (path : String)
    (f : os.File) (u : model.User)
    (h1 : w.Connect c.DatabaseAddress c.DatabaseName false = .ok ())
    (h2 : w.StartProcess model.ProcScheduler = .ok p)
    (h3 : w.GetProcessPath { WorkingDir := c.WorkingDir } p.ID.Hex "" = .ok path)
    (h4 : w.OpenFile (w.Join path (p.Type_ ++ ".log")) (os.O_WRONLY ||| os.O_CREATE)
      w.DefaultFilePerm = .ok f)
    (h5 : w.UserLogin = .ok u)
    (hret : Event.OptimizerRunListenerReturn ∈ (Start.run w c).main) :
    Start.run w c =
      { exit := .returned,
        main := loginCalls w c p path f ++
          [.Log (loggedInEntry p f u), .Send u.APIKey, .Go 1, .Clone .root (.copy 0 0),
           .OptimizerRunListener (contextWith c p f (.copy 0 0)) c.OptimizerID,
           .OptimizerRunListenerReturn, .SessionClose (.copy 0 0), .FileClose f,
           .SetProcessStatus .root p.ID model.ProcTerminated, .SessionClose .root],
        spawned := [keepaliveCalls w c p f] } := by
  obtain ⟨h6, hl⟩ := listener_returned w c p path f u h1 h2 h3 h4 h5 hret
  rw [run_launched w c p path f u h1 h2 h3 h4 h5 h6]
  simp [hl]

/-- C1: in every run of Start in which Connect, StartProcess, GetProcessPath, OpenFile and
UserLogin succeed and OptimizerRunListener returns, the calls made by Start contain exactly one
call of StartProcess and exactly one call of SetProcessStatus; that call is for the identifier
returned by StartProcess with the status ProcTerminated, and it is made after
OptimizerRunListener has returned and not before; the keepalive goroutine makes neither
call. -/
theorem Start_registers_once_and_terminates_once_after_dispatch
    (w : World) (c : process.Context) (p : model.Process) (path : String) (f : os.File)
    (u : model.User)
    (h1 : w.Connect c.DatabaseAddress c.DatabaseName false = .ok ())
    (h2 : w.StartProcess model.ProcScheduler = .ok p)
    (h3 : w.GetProcessPath { WorkingDir := c.WorkingDir } p.ID.Hex "" = .ok path)
    (h4 : w.OpenFile (w.Join path (p.Type_ ++ ".log")) (os.O_WRONLY ||| os.O_CREATE)
      w.DefaultFilePerm = .ok f)
    (h5 : w.UserLogin = .ok u)
    (hret : Event.OptimizerRunListenerReturn ∈ (Start.run w c).main) :
    (Start.run w c).main.filter Event.isStartProcess
        = [.StartProcess .root model.ProcScheduler] ∧
      (Start.run w c).main.filter Event.isSetProcessStatus
        = [.SetProcessStatus .root p.ID model.ProcTerminated] ∧
      Event.SetProcessStatus .root p.ID model.ProcTerminated
        ∈ callsAfter .OptimizerRunListenerReturn (Start.run w c).main ∧
      Event.SetProcessStatus .root p.ID model.ProcTerminated
        ∉ callsBefore .OptimizerRunListenerReturn (Start.run w c).main ∧
      ∀ g ∈ (Start.run w c).spawned,
        g.filter (fun e => e.isStartProcess || e.isSetProcessStatus) = [] := by
  rw [run_returned w c p path f u h1 h2 h3 h4 h5 hret]
  refine ⟨?_, ?_, ?_, ?_, ?_⟩
  · simp [loginCalls, registerCalls, List.filter, Event.isStartProcess]
  · simp [loginCalls, registerCalls, List.filter, Event.isSetProcessStatus]
  · simp [loginCalls, registerCalls, callsAfter, List.dropWhile_cons]
  · simp [loginCalls, registerCalls, callsBefore, List.takeWhile_cons]
  · intro g hg
    simp at hg
    subst hg
    unfold keepaliveCalls
    split <;> simp [List.filter, Event.isStartProcess, Event.isSetProcessStatus]

theorem Start_registers_once_and_terminates_once_after_dispatch_witness :
    Event.OptimizerRunListenerReturn ∈ (Start.run demoWorld demoContext).main ∧
    ((Start.run demoWorld demoContext).main.filter Event.isStartProcess
        = [.StartProcess .root model.ProcScheduler] ∧
      (Start.run demoWorld demoContext).main.filter Event.isSetProcessStatus
        = [.SetProcessStatus .root demoProcess.ID model.ProcTerminated] ∧
      Event.SetProcessStatus .root demoProcess.ID model.ProcTerminated
        ∈ callsAfter .OptimizerRunListenerReturn (Start.run demoWorld demoContext).main ∧
      Event.SetProcessStatus .root demoProcess.ID model.ProcTerminated
        ∉ callsBefore .OptimizerRunListenerReturn (Start.run demoWorld demoContext).main ∧
      ∀ g ∈ (Start.run demoWorld demoContext).spawned,
        g.filter (fun e => e.isStartProcess || e.isSetProcessStatus) = []) :=
  ⟨by decide,
   Start_registers_once_and_terminates_once_after_dispatch demoWorld demoContext demoProcess
    "/w/P1" demoFile { APIKey := "k1" } rfl rfl rfl rfl rfl (by decide)⟩

/-- C2: in every run of Start in which StartProcess succeeds and UserLogin then returns an
error (handled by WriteFatal), the run is terminated after the fatal log entry and the calls
deferred so far still run: the log file is closed, SetProcessStatus is called for the
registered identifier with ProcTerminated, the root session is closed, each exactly once; the
key is not sent, no goroutine is started and no worker routine is invoked. -/
theorem fatal_login_error_still_runs_deferred_cleanups
    (w : World) (c : process.Context) (p : model.Process) (path : String) (f : os.File)
    (e : Error)
    (h1 : w.Connect c.DatabaseAddress c.DatabaseName false = .ok ())
    (h2 : w.StartProcess model.ProcScheduler = .ok p)
    (h3 : w.GetProcessPath { WorkingDir := c.WorkingDir } p.ID.Hex "" = .ok path)
    (h4 : w.OpenFile (w.Join path (p.Type_ ++ ".log")) (os.O_WRONLY ||| os.O_CREATE)
      w.DefaultFilePerm = .ok f)
    (h5 : w.UserLogin = .error e) :
    (Start.run w c).exit = .fatal ∧
      callsAfter (.UserLogin .root) (Start.run w c).main
        = [.Log { level := .fatal, ProcessID := p.ID.Hex, fields := [],
                  message := "fatal: " ++ e, writers := [f] },
           .FileClose f, .SetProcessStatus .root p.ID model.ProcTerminated,
           .SessionClose .root] ∧
      (Start.run w c).main.filter Event.isSetProcessStatus
        = [.SetProcessStatus .root p.ID model.ProcTerminated] ∧
      (Start.run w c).main.count (.FileClose f) = 1 ∧
      (Start.run w c).main.count (.SessionClose .root) = 1 ∧
      (Start.run w c).main.filter (fun e => e.isSend || e.isGo || e.isClone ||
        e.isProcessKeepaliveWorker || e.isOptimizerRunListener) = [] ∧
      (Start.run w c).spawned = [] := by
  rw [run_login_fails w c p path f e h1 h2 h3 h4 h5]
  refine ⟨rfl, ?_, ?_, ?_, ?_, ?_, rfl⟩
  · simp [loginCalls, registerCalls, callsAfter, List.dropWhile_cons]
  · simp [loginCalls, registerCalls, List.filter, Event.isSetProcessStatus]
  · simp [loginCalls, registerCalls, List.count_cons]
  · simp [loginCalls, registerCalls, List.count_cons]
  · simp [loginCalls, registerCalls, List.filter, Event.isSend, Event.isGo, Event.isClone,
      Event.isProcessKeepaliveWorker, Event.isOptimizerRunListener]

theorem fatal_login_error_still_runs_deferred_cleanups_witness :
    (Start.run { demoWorld with UserLogin := .error "E" } demoContext).exit = .fatal ∧
      callsAfter (.UserLogin .root)
          (Start.run { demoWorld with UserLogin := .error "E" } demoContext).main
        = [.Log { level := .fatal, ProcessID := demoProcess.ID.Hex, fields := [],
                  message := "fatal: " ++ "E", writers := [demoFile] },
           .FileClose demoFile, .SetProcessStatus .root demoProcess.ID model.ProcTerminated,
           .SessionClose .root] ∧
      (Start.run { demoWorld with UserLogin := .error "E" } demoContext).main.filter
          Event.isSetProcessStatus
        = [.SetProcessStatus .root demoProcess.ID model.ProcTerminated] ∧
      (Start.run { demoWorld with UserLogin := .error "E" } demoContext).main.count
          (.FileClose demoFile) = 1 ∧
      (Start.run { demoWorld with UserLogin := .error "E" } demoContext).main.count
          (.SessionClose .root) = 1 ∧
      (Start.run { demoWorld with UserLogin := .error "E" } demoContext).main.filter
        (fun e => e.isSend || e.isGo || e.isClone ||
          e.isProcessKeepaliveWorker || e.isOptimizerRunListener) = [] ∧
      (Start.run { demoWorld with UserLogin := .error "E" } demoContext).spawned = [] :=
  fatal_login_error_still_runs_deferred_cleanups { demoWorld with UserLogin := .error "E" }
    demoContext demoProcess "/w/P1" demoFile "E" rfl rfl rfl rfl rfl

/-- C3: in every run of Start in which StartProcess returns an error E, a fatal log entry
whose message is "fatal: " followed by E (so it contains E) is written and the run is
terminated; SetProcessStatus is never called, no goroutine is started, and neither
ProcessKeepaliveWorker nor OptimizerRunListener is invoked. -/
theorem registration_error_logs_fatal_and_launches_nothing
    (w : World) (c : process.Context) (E : Error)
    (h1 : w.Connect c.DatabaseAddress c.DatabaseName false = .ok ())
    (h2 : w.StartProcess model.ProcScheduler = .error E) :
    (Start.run w c).exit = .fatal ∧
      logEntries (Start.run w c).main
        = [{ level := .fatal, ProcessID := "", fields := [], message := "fatal: " ++ E,
             writers := [] }] ∧
      E.data <:+ ("fatal: " ++ E).data ∧
      (Start.run w c).main.filter Event.isSetProcessStatus = [] ∧
      (Start.run w c).main.filter (fun e => e.isGo || e.isClone ||
        e.isProcessKeepaliveWorker || e.isOptimizerRunListener) = [] ∧
      (Start.run w c).spawned = [] := by
  rw [run_register_fails w c E h1 h2]
  refine ⟨rfl, ?_, ?_, ?_, ?_, rfl⟩
  · simp [registerCalls, logEntries]
  · rw [String.data_append]
    exact List.suffix_append _ _
  · simp [registerCalls, List.filter, Event.isSetProcessStatus]
  · simp [registerCalls, List.filter, Event.isGo, Event.isClone,
      Event.isProcessKeepaliveWorker, Event.isOptimizerRunListener]

theorem registration_error_logs_fatal_and_launches_nothing_witness :
    (Start.run { demoWorld with StartProcess := fun _ => .error "E" } demoContext).exit
        = .fatal ∧
      logEntries (Start.run { demoWorld with StartProcess := fun _ => .error "E" }
          demoContext).main
        = [{ level := .fatal, ProcessID := "", fields := [], message := "fatal: " ++ "E",
             writers := [] }] ∧
      "E".data <:+ ("fatal: " ++ "E").data ∧
      (Start.run { demoWorld with StartProcess := fun _ => .error "E" } demoContext).main.filter
        Event.isSetProcessStatus = [] ∧
      (Start.run { demoWorld with StartProcess := fun _ => .error "E" } demoContext).main.filter
        (fun e => e.isGo || e.isClone ||
          e.isProcessKeepaliveWorker || e.isOptimizerRunListener) = [] ∧
      (Start.run { demoWorld with StartProcess := fun _ => .error "E" } demoContext).spawned
        = [] :=
  registration_error_logs_fatal_and_launches_nothing
    { demoWorld with StartProcess := fun _ => .error "E" } demoContext "E" rfl rfl

/-- C4: in every run of Start in which StartProcess succeeds and GetProcessPath or OpenFile
returns an error, Start stops by a panic carrying that error; the deferred SetProcessStatus
for the registered identifier with ProcTerminated still runs, exactly once, followed by the
closing of the root session and nothing else; UserLogin is not called, the key is not sent, no
goroutine is started and no worker routine is invoked. -/
theorem log_file_error_panics_after_terminating_the_process
    (w : World) (c : process.Context) (p : model.Process) (e : Error)
    (h1 : w.Connect c.DatabaseAddress c.DatabaseName false = .ok ())
    (h2 : w.StartProcess model.ProcScheduler = .ok p)
    (h34 : w.GetProcessPath { WorkingDir := c.WorkingDir } p.ID.Hex "" = .error e ∨
      ∃ path, w.GetProcessPath { WorkingDir := c.WorkingDir } p.ID.Hex "" = .ok path ∧
        w.OpenFile (w.Join path (p.Type_ ++ ".log")) (os.O_WRONLY ||| os.O_CREATE)
          w.DefaultFilePerm = .error e) :
    (Start.run w c).exit = .panicked e ∧
      (Start.run w c).main.filter Event.isSetProcessStatus
        = [.SetProcessStatus .root p.ID model.ProcTerminated] ∧
      callsAfter (.SetProcessStatus .root p.ID model.ProcTerminated) (Start.run w c).main
        = [.SessionClose .root] ∧
      (Start.run w c).main.filter (fun e => e.isUserLogin || e.isSend || e.isGo || e.isClone ||
        e.isProcessKeepaliveWorker || e.isOptimizerRunListener) = [] ∧
      (Start.run w c).spawned = [] := by
  rcases h34 with h3 | ⟨path, h3, h4⟩
  · rw [run_path_fails w c p e h1 h2 h3]
    refine ⟨rfl, ?_, ?_, ?_, rfl⟩
    · simp [registerCalls, List.filter, Event.isSetProcessStatus]
    · simp [registerCalls, callsAfter, List.dropWhile_cons]
    · simp [registerCalls, List.filter, Event.isUserLogin, Event.isSend, Event.isGo,
        Event.isClone, Event.isProcessKeepaliveWorker, Event.isOptimizerRunListener]
  · rw [run_open_fails w c p path e h1 h2 h3 h4]
    refine ⟨rfl, ?_, ?_, ?_, rfl⟩
    · simp [registerCalls, List.filter, Event.isSetProcessStatus]
    · simp [registerCalls, callsAfter, List.dropWhile_cons]
    · simp [registerCalls, List.filter, Event.isUserLogin, Event.isSend, Event.isGo,
        Event.isClone, Event.isProcessKeepaliveWorker, Event.isOptimizerRunListener]

theorem log_file_error_panics_after_terminating_the_process_witness :
    (Start.run { demoWorld with OpenFile := fun _ _ _ => .error "E" } demoContext).exit
        = .panicked "E" ∧
      (Start.run { demoWorld with OpenFile := fun _ _ _ => .error "E" } demoContext).main.filter
          Event.isSetProcessStatus
        = [.SetProcessStatus .root demoProcess.ID model.ProcTerminated] ∧
      callsAfter (.SetProcessStatus .root demoProcess.ID model.ProcTerminated)
          (Start.run { demoWorld with OpenFile := fun _ _ _ => .error "E" } demoContext).main
        = [.SessionClose .root] ∧
      (Start.run { demoWorld with OpenFile := fun _ _ _ => .error "E" } demoContext).main.filter
        (fun e => e.isUserLogin || e.isSend || e.isGo || e.isClone ||
          e.isProcessKeepaliveWorker || e.isOptimizerRunListener) = [] ∧
      (Start.run { demoWorld with OpenFile := fun _ _ _ => .error "E" } demoContext).spawned
        = [] :=
  log_file_error_panics_after_terminating_the_process
    { demoWorld with OpenFile := fun _ _ _ => .error "E" } demoContext demoProcess "E" rfl rfl
    (Or.inr ⟨"/w/P1", rfl, rfl⟩)

/-- C5: in every run of Start in which all setup steps succeed and OptimizerRunListener
returns, the calls made after that return are exactly, in this order: the closing of the
session of the copy the listener ran on, the closing of the log file, SetProcessStatus for the
registered identifier with ProcTerminated, the closing of the root session; each of the four
occurs exactly once in the run. -/
theorem teardown_runs_in_reverse_order_of_the_defers
    (w : World) (c : process.Context) (p : model.Process) (path : String) (f : os.File)
    (u : model.User)
    (h1 : w.Connect c.DatabaseAddress c.DatabaseName false = .ok ())
    (h2 : w.StartProcess model.ProcScheduler = .ok p)
    (h3 : w.GetProcessPath { WorkingDir := c.WorkingDir } p.ID.Hex "" = .ok path)
    (h4 : w.OpenFile (w.Join path (p.Type_ ++ ".log")) (os.O_WRONLY ||| os.O_CREATE)
      w.DefaultFilePerm = .ok f)
    (h5 : w.UserLogin = .ok u)
    (hret : Event.OptimizerRunListenerReturn ∈ (Start.run w c).main) :
    ∃ ctx : workers.Context,
      (Start.run w c).main.filter Event.isOptimizerRunListener
        = [.OptimizerRunListener ctx c.OptimizerID] ∧
      Event.Clone .root ctx.ModelContext.Session ∈ (Start.run w c).main ∧
      (Start.run w c).exit = .returned ∧
      callsAfter .OptimizerRunListenerReturn (Start.run w c).main
        = [.SessionClose ctx.ModelContext.Session, .FileClose f,
           .SetProcessStatus .root p.ID model.ProcTerminated, .SessionClose .root] ∧
      (Start.run w c).main.count (.SessionClose ctx.ModelContext.Session) = 1 ∧
      (Start.run w c).main.count (.FileClose f) = 1 ∧
      (Start.run w c).main.count (.SetProcessStatus .root p.ID model.ProcTerminated) = 1 ∧
      (Start.run w c).main.count (.SessionClose .root) = 1 := by
  rw [run_returned w c p path f u h1 h2 h3 h4 h5 hret]
  refine ⟨contextWith c p f (.copy 0 0), ?_, ?_, rfl, ?_, ?_, ?_, ?_, ?_⟩
  · simp [loginCalls, registerCalls, List.filter, Event.isOptimizerRunListener]
  · simp [loginCalls, registerCalls, contextWith]
  · simp [loginCalls, registerCalls, callsAfter, List.dropWhile_cons, contextWith]
  · simp [loginCalls, registerCalls, List.count_cons, contextWith]
  · simp [loginCalls, registerCalls, List.count_cons]
  · simp [loginCalls, registerCalls, List.count_cons]
  · simp [loginCalls, registerCalls, List.count_cons]

theorem teardown_runs_in_reverse_order_of_the_defers_witness :
    Event.OptimizerRunListenerReturn ∈ (Start.run demoWorld demoContext).main ∧
    ∃ ctx : workers.Context,
      (Start.run demoWorld demoContext).main.filter Event.isOptimizerRunListener
        = [.OptimizerRunListener ctx demoContext.OptimizerID] ∧
      Event.Clone .root ctx.ModelContext.Session ∈ (Start.run demoWorld demoContext).main ∧
      (Start.run demoWorld demoContext).exit = .returned ∧
      callsAfter .OptimizerRunListenerReturn (Start.run demoWorld demoContext).main
        = [.SessionClose ctx.ModelContext.Session, .FileClose demoFile,
           .SetProcessStatus .root demoProcess.ID model.ProcTerminated, .SessionClose .root] ∧
      (Start.run demoWorld demoContext).main.count (.SessionClose ctx.ModelContext.Session)
        = 1 ∧
      (Start.run demoWorld demoContext).main.count (.FileClose demoFile) = 1 ∧
      (Start.run demoWorld demoContext).main.count
        (.SetProcessStatus .root demoProcess.ID model.ProcTerminated) = 1 ∧
      (Start.run demoWorld demoContext).main.count (.SessionClose .root) = 1 :=
  ⟨by decide,
   teardown_runs_in_reverse_order_of_the_defers demoWorld demoContext demoProcess "/w/P1"
    demoFile { APIKey := "k1" } rfl rfl rfl rfl rfl (by decide)⟩

/-- A run that executes the `go` statement has got through the whole setup, and the channel
has delivered the key. -/
theorem setup_of_launch (w : World) (c : process.Context)
    (hgo : (Start.run w c).main.any Event.isGo = true) :
    ∃ p path f u,
      w.Connect c.DatabaseAddress c.DatabaseName false = .ok () ∧
      w.StartProcess model.ProcScheduler = .ok p ∧
      w.GetProcessPath { WorkingDir := c.WorkingDir } p.ID.Hex "" = .ok path ∧
      w.OpenFile (w.Join path (p.Type_ ++ ".log")) (os.O_WRONLY ||| os.O_CREATE)
        w.DefaultFilePerm = .ok f ∧
      w.UserLogin = .ok u ∧ c.RootAPIKey = .ready := by
  rcases path_exists w c with ⟨e, h1⟩ | ⟨e, h1, h2⟩ | ⟨p, e, h1, h2, h3⟩ |
    ⟨p, path, e, h1, h2, h3, h4⟩ | ⟨p, path, f, e, h1, h2, h3, h4, h5⟩ |
    ⟨p, path, f, u, h1, h2, h3, h4, h5⟩
  · rw [run_connect_fails w c e h1] at hgo
    simp [Event.isGo] at hgo
  · rw [run_register_fails w c e h1 h2] at hgo
    simp [registerCalls, Event.isGo] at hgo
  · rw [run_path_fails w c p e h1 h2 h3] at hgo
    simp [registerCalls, Event.isGo] at hgo
  · rw [run_open_fails w c p path e h1 h2 h3 h4] at hgo
    simp [registerCalls, Event.isGo] at hgo
  · rw [run_login_fails w c p path f e h1 h2 h3 h4 h5] at hgo
    simp [loginCalls, registerCalls, Event.isGo] at hgo
  · rcases h6 : c.RootAPIKey with _ | _ | _
    · exact ⟨p, path, f, u, h1, h2, h3, h4, h5, rfl⟩
    · rw [run_send_blocks w c p path f u h1 h2 h3 h4 h5 h6] at hgo
      simp [loginCalls, registerCalls, Event.isGo] at hgo
    · rw [run_send_closed w c p path f u h1 h2 h3 h4 h5 h6] at hgo
      simp [loginCalls, registerCalls, Event.isGo] at hgo

/-- A run in which the listener returns has got through the whole setup. -/
theorem setup_of_return (w : World) (c : process.Context)
    (hret : Event.OptimizerRunListenerReturn ∈ (Start.run w c).main) :
    ∃ p path f u,
      w.Connect c.DatabaseAddress c.DatabaseName false = .ok () ∧
      w.StartProcess model.ProcScheduler = .ok p ∧
      w.GetProcessPath { WorkingDir := c.WorkingDir } p.ID.Hex "" = .ok path ∧
      w.OpenFile (w.Join path (p.Type_ ++ ".log")) (os.O_WRONLY ||| os.O_CREATE)
        w.DefaultFilePerm = .ok f ∧
      w.UserLogin = .ok u := by
  rcases path_exists w c with ⟨e, h1⟩ | ⟨e, h1, h2⟩ | ⟨p, e, h1, h2, h3⟩ |
    ⟨p, path, e, h1, h2, h3, h4⟩ | ⟨p, path, f, e, h1, h2, h3, h4, h5⟩ |
    ⟨p, path, f, u, h1, h2, h3, h4, h5⟩
  · rw [run_connect_fails w c e h1] at hret
    simp at hret
  · rw [run_register_fails w c e h1 h2] at hret
    simp [registerCalls] at hret
  · rw [run_path_fails w c p e h1 h2 h3] at hret
    simp [registerCalls] at hret
  · rw [run_open_fails w c p path e h1 h2 h3 h4] at hret
    simp [registerCalls] at hret
  · rw [run_login_fails w c p path f e h1 h2 h3 h4 h5] at hret
    simp [loginCalls, registerCalls] at hret
  · exact ⟨p, path, f, u, h1, h2, h3, h4, h5⟩

/-- The sends of a run: none, or the key returned by `UserLogin`. -/
theorem sends_of_run (w : World) (c : process.Context) :
    (Start.run w c).main.filter Event.isSend = [] ∨
      ∃ u, w.UserLogin = .ok u ∧ (Start.run w c).main.filter Event.isSend = [.Send u.APIKey] := by
  rcases path_exists w c with ⟨e, h1⟩ | ⟨e, h1, h2⟩ | ⟨p, e, h1, h2, h3⟩ |
    ⟨p, path, e, h1, h2, h3, h4⟩ | ⟨p, path, f, e, h1, h2, h3, h4, h5⟩ |
    ⟨p, path, f, u, h1, h2, h3, h4, h5⟩
  · left
    rw [run_connect_fails w c e h1]
    simp [List.filter, Event.isSend]
  · left
    rw [run_register_fails w c e h1 h2]
    simp [registerCalls, List.filter, Event.isSend]
  · left
    rw [run_path_fails w c p e h1 h2 h3]
    simp [registerCalls, List.filter, Event.isSend]
  · left
    rw [run_open_fails w c p path e h1 h2 h3 h4]
    simp [registerCalls, List.filter, Event.isSend]
  · left
    rw [run_login_fails w c p path f e h1 h2 h3 h4 h5]
    simp [loginCalls, registerCalls, List.filter, Event.isSend]
  · rcases h6 : c.RootAPIKey with _ | _ | _
    · right
      refine ⟨u, h5, ?_⟩
      rw [run_launched w c p path f u h1 h2 h3 h4 h5 h6]
      by_cases hl : w.OptimizerRunListener (contextWith c p f (.copy 0 0)) c.OptimizerID = true
      · simp [hl, loginCalls, registerCalls, List.filter, Event.isSend]
      · simp [hl, loginCalls, registerCalls, List.filter, Event.isSend]
    · left
      rw [run_send_blocks w c p path f u h1 h2 h3 h4 h5 h6]
      simp [loginCalls, registerCalls, List.filter, Event.isSend]
    · left
      rw [run_send_closed w c p path f u h1 h2 h3 h4 h5 h6]
      simp [loginCalls, registerCalls, List.filter, Event.isSend]

/-- The goroutines of a run send nothing on the channel. -/
theorem no_send_in_goroutines (w : World) (c : process.Context) :
    ∀ g ∈ (Start.run w c).spawned, g.filter Event.isSend = [] := by
  rcases path_exists w c with ⟨e, h1⟩ | ⟨e, h1, h2⟩ | ⟨p, e, h1, h2, h3⟩ |
    ⟨p, path, e, h1, h2, h3, h4⟩ | ⟨p, path, f, e, h1, h2, h3, h4, h5⟩ |
    ⟨p, path, f, u, h1, h2, h3, h4, h5⟩
  · rw [run_connect_fails w c e h1]
    simp
  · rw [run_register_fails w c e h1 h2]
    simp
  · rw [run_path_fails w c p e h1 h2 h3]
    simp
  · rw [run_open_fails w c p path e h1 h2 h3 h4]
    simp
  · rw [run_login_fails w c p path f e h1 h2 h3 h4 h5]
    simp
  · rcases h6 : c.RootAPIKey with _ | _ | _
    · rw [run_launched w c p path f u h1 h2 h3 h4 h5 h6]
      intro g hg
      simp at hg
      subst hg
      unfold keepaliveCalls
      split <;> simp [List.filter, Event.isSend]
    · rw [run_send_blocks w c p path f u h1 h2 h3 h4 h5 h6]
      simp
    · rw [run_send_closed w c p path f u h1 h2 h3 h4 h5 h6]
      simp

/-- C6: in every run of Start with a store that succeeds registration (identifier P1) and
login (key k1) and a listener that returns, the calls of StartProcess, sends on RootAPIKey,
invocations of OptimizerRunListener and calls of SetProcessStatus are, in order:
StartProcess(ProcScheduler), the send of k1, one invocation of OptimizerRunListener,
SetProcessStatus(P1, ProcTerminated). In every run at most one value is sent on RootAPIKey,
and a value that is sent is the APIKey returned by UserLogin; the goroutine sends nothing. -/
theorem api_key_is_sent_once_between_registration_and_dispatch
    (w : World) (c : process.Context) :
    (∀ p u, w.StartProcess model.ProcScheduler = .ok p → w.UserLogin = .ok u →
      Event.OptimizerRunListenerReturn ∈ (Start.run w c).main →
      ∃ ctx : workers.Context,
        (Start.run w c).main.filter (fun e => e.isStartProcess || e.isSend ||
            e.isOptimizerRunListener || e.isSetProcessStatus)
          = [.StartProcess .root model.ProcScheduler, .Send u.APIKey,
             .OptimizerRunListener ctx c.OptimizerID,
             .SetProcessStatus .root p.ID model.ProcTerminated]) ∧
      ((Start.run w c).main.filter Event.isSend).length ≤ 1 ∧
      (∀ k, Event.Send k ∈ (Start.run w c).main →
        ∃ u, w.UserLogin = .ok u ∧ u.APIKey = k) ∧
      ∀ g ∈ (Start.run w c).spawned, g.filter Event.isSend = [] := by
  refine ⟨?_, ?_, ?_, no_send_in_goroutines w c⟩
  · intro p u h2 h5 hret
    obtain ⟨p1, path, f, u1, h1, h2a, h3, h4, h5a⟩ := setup_of_return w c hret
    rw [h2] at h2a
    rw [h5] at h5a
    cases h2a
    cases h5a
    rw [run_returned w c p path f u h1 h2 h3 h4 h5 hret]
    refine ⟨contextWith c p f (.copy 0 0), ?_⟩
    simp [loginCalls, registerCalls, List.filter, Event.isStartProcess, Event.isSend,
      Event.isOptimizerRunListener, Event.isSetProcessStatus]
  · rcases sends_of_run w c with h | ⟨u, _, h⟩ <;> simp [h]
  · intro k hk
    have hk1 : Event.Send k ∈ (Start.run w c).main.filter Event.isSend :=
      List.mem_filter.mpr ⟨hk, rfl⟩
    rcases sends_of_run w c with h | ⟨u, hu, h⟩
    · simp [h] at hk1
    · rw [h] at hk1
      simp at hk1
      exact ⟨u, hu, hk1.symm⟩

theorem api_key_is_sent_once_between_registration_and_dispatch_witness :
    ∃ ctx : workers.Context,
      (Start.run demoWorld demoContext).main.filter (fun e => e.isStartProcess || e.isSend ||
          e.isOptimizerRunListener || e.isSetProcessStatus)
        = [.StartProcess .root model.ProcScheduler, .Send "k1",
           .OptimizerRunListener ctx "opt",
           .SetProcessStatus .root { Hex := "P1" } model.ProcTerminated] :=
  (api_key_is_sent_once_between_registration_and_dispatch demoWorld demoContext).1
    demoProcess { APIKey := "k1" } rfl rfl (by decide)

/-- C7: in every run of Start that reaches the launch of the tasks, Clone is called exactly
twice, once on the calling thread and once in the goroutine; OptimizerRunListener is invoked on
the copy made on the calling thread, ProcessKeepaliveWorker on the copy made in the goroutine;
the sessions of the two copies differ from each other and from the root session, so that the
sessions of the run are the root session and one copy for each task. -/
theorem each_task_runs_on_its_own_copy_of_the_session
    (w : World) (c : process.Context)
    (hgo : (Start.run w c).main.any Event.isGo = true) :
    ∃ (ctxK ctxL : workers.Context) (g : List Event),
      (Start.run w c).spawned = [g] ∧
      (Start.run w c).main.filter Event.isClone = [.Clone .root ctxL.ModelContext.Session] ∧
      g.filter Event.isClone = [.Clone .root ctxK.ModelContext.Session] ∧
      ((Start.run w c).main.filter Event.isClone).length + (g.filter Event.isClone).length
        = 2 ∧
      (Start.run w c).main.filter
          (fun e => e.isOptimizerRunListener || e.isProcessKeepaliveWorker)
        = [.OptimizerRunListener ctxL c.OptimizerID] ∧
      g.filter (fun e => e.isOptimizerRunListener || e.isProcessKeepaliveWorker)
        = [.ProcessKeepaliveWorker ctxK c.KeepAlivePeriod] ∧
      ctxK.ModelContext.Session ≠ ctxL.ModelContext.Session ∧
      ctxK.ModelContext.Session ≠ .root ∧
      ctxL.ModelContext.Session ≠ .root ∧
      clonedSessions (Start.run w c).main ++ clonedSessions g
        = [ctxL.ModelContext.Session, ctxK.ModelContext.Session] := by
  obtain ⟨p, path, f, u, h1, h2, h3, h4, h5, h6⟩ := setup_of_launch w c hgo
  rw [run_launched w c p path f u h1 h2 h3 h4 h5 h6]
  refine ⟨contextWith c p f (.copy 1 0), contextWith c p f (.copy 0 0),
    keepaliveCalls w c p f, rfl, ?_⟩
  by_cases hl : w.OptimizerRunListener (contextWith c p f (.copy 0 0)) c.OptimizerID = true <;>
  by_cases hk : w.ProcessKeepaliveWorker (contextWith c p f (.copy 1 0)) c.KeepAlivePeriod
    = true <;>
  simp only [contextWith, Bool.not_eq_true] at hl hk <;>
  simp [hl, hk, keepaliveCalls, loginCalls, registerCalls, List.filter, Event.isClone,
    Event.isOptimizerRunListener, Event.isProcessKeepaliveWorker, clonedSessions, contextWith]

theorem each_task_runs_on_its_own_copy_of_the_session_witness :
    (Start.run demoWorld demoContext).main.any Event.isGo = true ∧
    ∃ (ctxK ctxL : workers.Context) (g : List Event),
      (Start.run demoWorld demoContext).spawned = [g] ∧
      (Start.run demoWorld demoContext).main.filter Event.isClone
        = [.Clone .root ctxL.ModelContext.Session] ∧
      g.filter Event.isClone = [.Clone .root ctxK.ModelContext.Session] ∧
      ((Start.run demoWorld demoContext).main.filter Event.isClone).length
        + (g.filter Event.isClone).length = 2 ∧
      (Start.run demoWorld demoContext).main.filter
          (fun e => e.isOptimizerRunListener || e.isProcessKeepaliveWorker)
        = [.OptimizerRunListener ctxL demoContext.OptimizerID] ∧
      g.filter (fun e => e.isOptimizerRunListener || e.isProcessKeepaliveWorker)
        = [.ProcessKeepaliveWorker ctxK demoContext.KeepAlivePeriod] ∧
      ctxK.ModelContext.Session ≠ ctxL.ModelContext.Session ∧
      ctxK.ModelContext.Session ≠ .root ∧
      ctxL.ModelContext.Session ≠ .root ∧
      clonedSessions (Start.run demoWorld demoContext).main ++ clonedSessions g
        = [ctxL.ModelContext.Session, ctxK.ModelContext.Session] :=
  ⟨by decide, each_task_runs_on_its_own_copy_of_the_session demoWorld demoContext (by decide)⟩

/-- C8, as stated, fails: in the run of the sample world registration succeeds and the log
file is opened with the flags O_WRONLY|O_CREATE (65), which do not include O_APPEND. -/
theorem log_file_open_flags_lack_append :
    demoWorld.StartProcess model.ProcScheduler = .ok demoProcess ∧
      (Start.run demoWorld demoContext).main.filter Event.isOpenFile
        = [.OpenFile "/w/P1/scheduler.log" 65 0o644] ∧
      os.hasFlag 65 os.O_APPEND = false :=
  ⟨rfl, by decide, by decide⟩

/-- C8, amended: in every run of Start in which registration succeeds and GetProcessPath,
called with the hexadecimal identifier of the process and the empty string, gives a path, the
log file is opened exactly once, under that path joined with the process type followed by
".log", with the flags O_WRONLY|O_CREATE and the permission DefaultFilePerm; these flags make
the file write-only and create it when absent, and include neither O_APPEND nor O_TRUNC. -/
theorem log_file_is_opened_write_only_under_the_process_path
    (w : World) (c : process.Context) (p : model.Process) (path : String)
    (h1 : w.Connect c.DatabaseAddress c.DatabaseName false = .ok ())
    (h2 : w.StartProcess model.ProcScheduler = .ok p)
    (h3 : w.GetProcessPath { WorkingDir := c.WorkingDir } p.ID.Hex "" = .ok path) :
    Event.GetProcessPath { WorkingDir := c.WorkingDir } p.ID.Hex "" ∈ (Start.run w c).main ∧
      (Start.run w c).main.filter Event.isOpenFile
        = [.OpenFile (w.Join path (p.Type_ ++ ".log")) (os.O_WRONLY ||| os.O_CREATE)
            w.DefaultFilePerm] ∧
      os.hasFlag (os.O_WRONLY ||| os.O_CREATE) os.O_WRONLY = true ∧
      os.hasFlag (os.O_WRONLY ||| os.O_CREATE) os.O_CREATE = true ∧
      os.hasFlag (os.O_WRONLY ||| os.O_CREATE) os.O_APPEND = false ∧
      os.hasFlag (os.O_WRONLY ||| os.O_CREATE) os.O_TRUNC = false := by
  refine ⟨?_, ?_, by decide, by decide, by decide, by decide⟩
  · rcases h4 : w.OpenFile (w.Join path (p.Type_ ++ ".log")) (os.O_WRONLY ||| os.O_CREATE)
      w.DefaultFilePerm with e | f
    · rw [run_open_fails w c p path e h1 h2 h3 h4]
      simp [registerCalls]
    rcases h5 : w.UserLogin with e | u
    · rw [run_login_fails w c p path f e h1 h2 h3 h4 h5]
      simp [loginCalls, registerCalls]
    rcases h6 : c.RootAPIKey with _ | _ | _
    · rw [run_launched w c p path f u h1 h2 h3 h4 h5 h6]
      simp [loginCalls, registerCalls]
    · rw [run_send_blocks w c p path f u h1 h2 h3 h4 h5 h6]
      simp [loginCalls, registerCalls]
    · rw [run_send_closed w c p path f u h1 h2 h3 h4 h5 h6]
      simp [loginCalls, registerCalls]
  · rcases h4 : w.OpenFile (w.Join path (p.Type_ ++ ".log")) (os.O_WRONLY ||| os.O_CREATE)
      w.DefaultFilePerm with e | f
    · rw [run_open_fails w c p path e h1 h2 h3 h4]
      simp [registerCalls, List.filter, Event.isOpenFile]
    rcases h5 : w.UserLogin with e | u
    · rw [run_login_fails w c p path f e h1 h2 h3 h4 h5]
      simp [loginCalls, registerCalls, List.filter, Event.isOpenFile]
    rcases h6 : c.RootAPIKey with _ | _ | _
    · rw [run_launched w c p path f u h1 h2 h3 h4 h5 h6]
      by_cases hl : w.OptimizerRunListener (contextWith c p f (.copy 0 0)) c.OptimizerID = true
      · simp [hl, loginCalls, registerCalls, List.filter, Event.isOpenFile]
      · simp [hl, loginCalls, registerCalls, List.filter, Event.isOpenFile]
    · rw [run_send_blocks w c p path f u h1 h2 h3 h4 h5 h6]
      simp [loginCalls, registerCalls, List.filter, Event.isOpenFile]
    · rw [run_send_closed w c p path f u h1 h2 h3 h4 h5 h6]
      simp [loginCalls, registerCalls, List.filter, Event.isOpenFile]

theorem log_file_is_opened_write_only_under_the_process_path_witness :
    Event.GetProcessPath { WorkingDir := demoContext.WorkingDir } demoProcess.ID.Hex ""
        ∈ (Start.run demoWorld demoContext).main ∧
      (Start.run demoWorld demoContext).main.filter Event.isOpenFile
        = [.OpenFile (demoWorld.Join "/w/P1" (demoProcess.Type_ ++ ".log"))
            (os.O_WRONLY ||| os.O_CREATE) demoWorld.DefaultFilePerm] ∧
      os.hasFlag (os.O_WRONLY ||| os.O_CREATE) os.O_WRONLY = true ∧
      os.hasFlag (os.O_WRONLY ||| os.O_CREATE) os.O_CREATE = true ∧
      os.hasFlag (os.O_WRONLY ||| os.O_CREATE) os.O_APPEND = false ∧
      os.hasFlag (os.O_WRONLY ||| os.O_CREATE) os.O_TRUNC = false :=
  log_file_is_opened_write_only_under_the_process_path demoWorld demoContext demoProcess
    "/w/P1" rfl rfl rfl

/-- C9, as stated, fails: with a listener period of 1 and a keepalive period of 2 the
goroutine invokes ProcessKeepaliveWorker with the period 2 on a context whose Period is 1. -/
theorem context_period_differs_from_keepalive_period :
    ∃ (ctx : workers.Context) (period : Int),
      (Start.run demoWorld demoContext).spawned
        = [[.Clone .root (.copy 1 0), .ProcessKeepaliveWorker ctx period]] ∧
      ctx.Period = 1 ∧ period = 2 ∧ ctx.Period ≠ period :=
  ⟨contextWith demoContext demoProcess demoFile (.copy 1 0), 2, by decide, by decide,
    by decide, by decide⟩

/-- C9, amended: in every run of Start that reaches the launch of the tasks, the context
handed to both tasks carries the period `context.ListenerPeriod`, and the period passed to
ProcessKeepaliveWorker is `context.KeepAlivePeriod`, a separate field of the configuration. -/
theorem context_period_is_listener_period
    (w : World) (c : process.Context)
    (hgo : (Start.run w c).main.any Event.isGo = true) :
    ∃ (ctxK ctxL : workers.Context) (g : List Event),
      (Start.run w c).spawned = [g] ∧
      g.filter Event.isProcessKeepaliveWorker
        = [.ProcessKeepaliveWorker ctxK c.KeepAlivePeriod] ∧
      (Start.run w c).main.filter Event.isOptimizerRunListener
        = [.OptimizerRunListener ctxL c.OptimizerID] ∧
      ctxK.Period = c.ListenerPeriod ∧ ctxL.Period = c.ListenerPeriod := by
  obtain ⟨p, path, f, u, h1, h2, h3, h4, h5, h6⟩ := setup_of_launch w c hgo
  rw [run_launched w c p path f u h1 h2 h3 h4 h5 h6]
  refine ⟨contextWith c p f (.copy 1 0), contextWith c p f (.copy 0 0),
    keepaliveCalls w c p f, rfl, ?_⟩
  by_cases hl : w.OptimizerRunListener (contextWith c p f (.copy 0 0)) c.OptimizerID = true <;>
  by_cases hk : w.ProcessKeepaliveWorker (contextWith c p f (.copy 1 0)) c.KeepAlivePeriod
    = true <;>
  simp only [contextWith, Bool.not_eq_true] at hl hk <;>
  simp [hl, hk, keepaliveCalls, loginCalls, registerCalls, List.filter,
    Event.isOptimizerRunListener, Event.isProcessKeepaliveWorker, contextWith]

theorem context_period_is_listener_period_witness :
    (Start.run demoWorld demoContext).main.any Event.isGo = true ∧
    ∃ (ctxK ctxL : workers.Context) (g : List Event),
      (Start.run demoWorld demoContext).spawned = [g] ∧
      g.filter Event.isProcessKeepaliveWorker
        = [.ProcessKeepaliveWorker ctxK demoContext.KeepAlivePeriod] ∧
      (Start.run demoWorld demoContext).main.filter Event.isOptimizerRunListener
        = [.OptimizerRunListener ctxL demoContext.OptimizerID] ∧
      ctxK.Period = demoContext.ListenerPeriod ∧ ctxL.Period = demoContext.ListenerPeriod :=
  ⟨by decide, context_period_is_listener_period demoWorld demoContext (by decide)⟩

/-- The log entries of a run in which the login succeeds. -/
theorem logEntries_of_login (w : World) (c : process.Context) (p : model.Process)
    (path : String) (f : os.File) (u : model.User)
    (h1 : w.Connect c.DatabaseAddress c.DatabaseName false = .ok ())
    (h2 : w.StartProcess model.ProcScheduler = .ok p)
    (h3 : w.GetProcessPath { WorkingDir := c.WorkingDir } p.ID.Hex "" = .ok path)
    (h4 : w.OpenFile (w.Join path (p.Type_ ++ ".log")) (os.O_WRONLY ||| os.O_CREATE)
      w.DefaultFilePerm = .ok f)
    (h5 : w.UserLogin = .ok u) :
    logEntries (Start.run w c).main = [startedEntry p, loggedInEntry p f u] := by
  rcases h6 : c.RootAPIKey with _ | _ | _
  · rw [run_launched w c p path f u h1 h2 h3 h4 h5 h6]
    by_cases hl : w.OptimizerRunListener (contextWith c p f (.copy 0 0)) c.OptimizerID = true
    · simp [hl, loginCalls, registerCalls, logEntries]
    · simp [hl, loginCalls, registerCalls, logEntries]
  · rw [run_send_blocks w c p path f u h1 h2 h3 h4 h5 h6]
    simp [loginCalls, registerCalls, logEntries]
  · rw [run_send_closed w c p path f u h1 h2 h3 h4 h5 h6]
    simp [loginCalls, registerCalls, logEntries]

/-- C10: in every run of Start in which UserLogin succeeds, the info entry "ROOT USER LOGGED
IN" carries the API key as the value of its field "api-key" and goes to the log file of the
process; it is written before any send on RootAPIKey; and two runs that differ only in the
API key returned by UserLogin write different log entries, to the log sinks at large and to
the log file of the process. -/
theorem api_key_is_written_to_the_log
    (w : World) (c : process.Context) (p : model.Process) (path : String) (f : os.File)
    (u : model.User)
    (h1 : w.Connect c.DatabaseAddress c.DatabaseName false = .ok ())
    (h2 : w.StartProcess model.ProcScheduler = .ok p)
    (h3 : w.GetProcessPath { WorkingDir := c.WorkingDir } p.ID.Hex "" = .ok path)
    (h4 : w.OpenFile (w.Join path (p.Type_ ++ ".log")) (os.O_WRONLY ||| os.O_CREATE)
      w.DefaultFilePerm = .ok f)
    (h5 : w.UserLogin = .ok u) :
    Event.Log { level := .info, ProcessID := p.ID.Hex,
                fields := [("api-key", .str u.APIKey)], message := "ROOT USER LOGGED IN",
                writers := [f] } ∈ (Start.run w c).main ∧
      (callsBefore
        (.Log { level := .info, ProcessID := p.ID.Hex,
                fields := [("api-key", .str u.APIKey)], message := "ROOT USER LOGGED IN",
                writers := [f] }) (Start.run w c).main).filter Event.isSend = [] ∧
      (∀ k, Event.Send k ∈ (Start.run w c).main →
        Event.Send k ∈ callsAfter
          (.Log { level := .info, ProcessID := p.ID.Hex,
                  fields := [("api-key", .str u.APIKey)], message := "ROOT USER LOGGED IN",
                  writers := [f] }) (Start.run w c).main) ∧
      ∀ u2 : model.User, u2.APIKey ≠ u.APIKey →
        logEntries (Start.run { w with UserLogin := .ok u2 } c).main
            ≠ logEntries (Start.run w c).main ∧
          writtenTo f (Start.run { w with UserLogin := .ok u2 } c).main
            ≠ writtenTo f (Start.run w c).main := by
  refine ⟨?_, ?_, ?_, ?_⟩
  · rcases h6 : c.RootAPIKey with _ | _ | _
    · rw [run_launched w c p path f u h1 h2 h3 h4 h5 h6]
      simp [loginCalls, registerCalls, loggedInEntry]
    · rw [run_send_blocks w c p path f u h1 h2 h3 h4 h5 h6]
      simp [loginCalls, registerCalls, loggedInEntry]
    · rw [run_send_closed w c p path f u h1 h2 h3 h4 h5 h6]
      simp [loginCalls, registerCalls, loggedInEntry]
  · rcases h6 : c.RootAPIKey with _ | _ | _
    · rw [run_launched w c p path f u h1 h2 h3 h4 h5 h6]
      simp [loginCalls, registerCalls, loggedInEntry, startedEntry, callsBefore,
        List.takeWhile_cons, List.filter, Event.isSend]
    · rw [run_send_blocks w c p path f u h1 h2 h3 h4 h5 h6]
      simp [loginCalls, registerCalls, loggedInEntry, startedEntry, callsBefore,
        List.takeWhile_cons, List.filter, Event.isSend]
    · rw [run_send_closed w c p path f u h1 h2 h3 h4 h5 h6]
      simp [loginCalls, registerCalls, loggedInEntry, startedEntry, callsBefore,
        List.takeWhile_cons, List.filter, Event.isSend]
  · intro k
    rcases h6 : c.RootAPIKey with _ | _ | _
    · rw [run_launched w c p path f u h1 h2 h3 h4 h5 h6]
      by_cases hl : w.OptimizerRunListener (contextWith c p f (.copy 0 0)) c.OptimizerID = true
      · simp [hl, loginCalls, registerCalls, loggedInEntry, startedEntry, callsAfter,
          List.dropWhile_cons]
      · simp [hl, loginCalls, registerCalls, loggedInEntry, startedEntry, callsAfter,
          List.dropWhile_cons]
    · rw [run_send_blocks w c p path f u h1 h2 h3 h4 h5 h6]
      simp [loginCalls, registerCalls, loggedInEntry, startedEntry, callsAfter,
        List.dropWhile_cons]
    · rw [run_send_closed w c p path f u h1 h2 h3 h4 h5 h6]
      simp [loginCalls, registerCalls, loggedInEntry, startedEntry, callsAfter,
        List.dropWhile_cons]
  · intro u2 hne
    have e1 := logEntries_of_login w c p path f u h1 h2 h3 h4 h5
    have e2 := logEntries_of_login { w with UserLogin := .ok u2 } c p path f u2 h1 h2 h3 h4 rfl
    simp only [writtenTo, e1, e2]
    simp [loggedInEntry, startedEntry, List.filter, hne]

theorem api_key_is_written_to_the_log_witness :
    Event.Log { level := .info, ProcessID := "P1",
                fields := [("api-key", .str "k1")], message := "ROOT USER LOGGED IN",
                writers := [demoFile] } ∈ (Start.run demoWorld demoContext).main ∧
      logEntries (Start.run { demoWorld with UserLogin := .ok { APIKey := "k2" } }
          demoContext).main
        ≠ logEntries (Start.run demoWorld demoContext).main ∧
      writtenTo demoFile (Start.run { demoWorld with UserLogin := .ok { APIKey := "k2" } }
          demoContext).main
        ≠ writtenTo demoFile (Start.run demoWorld demoContext).main :=
  ⟨(api_key_is_written_to_the_log demoWorld demoContext demoProcess "/w/P1" demoFile
      { APIKey := "k1" } rfl rfl rfl rfl rfl).1,
   (api_key_is_written_to_the_log demoWorld demoContext demoProcess "/w/P1" demoFile
      { APIKey := "k1" } rfl rfl rfl rfl rfl).2.2.2 { APIKey := "k2" } (by decide)⟩

end Scheduler
